import Mathlib

/-!
Shallow embedding of the cqparts documentation example
`docs-sphinx/_static/iframes/easy-install/generate.py`: a wood screw, a wall
anchor, an assembly joining them, a fastener that sizes itself from a vector
evaluation, a transient catalogue, and an export/display phase selected by the
runtime environment name.

Geometry built through the cadquery fluent interface is embedded as a free
term algebra (`Wire`, `Sketch`, `Geom`): each cadquery call becomes a
constructor, so two solids are equal exactly when the script builds them by
the same sequence of operations.  Scalar parameters (Python floats) are
modelled as real numbers; `abs` of a cadquery vector is its Euclidean norm.
Every workplane in the script is the XY plane, so a workplane is represented
by its origin vector alone.
-/

/-- A 3-component vector (cadquery `Vector`). -/
structure Vec3 where
  x : ℝ
  y : ℝ
  z : ℝ

instance : Sub Vec3 := ⟨fun a b => ⟨a.x - b.x, a.y - b.y, a.z - b.z⟩⟩

/-- Euclidean norm of a vector: Python `abs(v)` on a cadquery vector. -/
noncomputable def vabs (v : Vec3) : ℝ :=
  Real.sqrt (v.x ^ 2 + v.y ^ 2 + v.z ^ 2)

/-- A coordinate system (`cqparts.utils.CoordSystem`): origin, x direction
and normal.  The `CoordSystem` constructor defaults are
`xDir=(1,0,0)`, `normal=(0,0,1)`. -/
structure CoordSys where
  origin : Vec3
  xDir : Vec3
  normal : Vec3

/-- A mate (`cqparts.constraint.Mate`): a named coordinate frame on a part.
`Mate.local_coords` is the coordinate system the mate was built from. -/
structure Mate where
  local_coords : CoordSys

/-- A sub-part specification such as `('cheese', {'diameter': 4, ...})`
passed to the `HeadType` / `DriveType` / `ThreadType` parameters. -/
structure SubPart where
  kind : String
  params : List (String × ℝ)

/-- A 2d wire built by a cadquery call chain on a workplane. -/
inductive Wire where
  | moveTo (x y : ℝ)
  | lineTo (w : Wire) (x y : ℝ)
  | threePointArc (w : Wire) (p1 p2 : ℝ × ℝ)
  | spline (w : Wire) (points : List (ℝ × ℝ))
  | close (w : Wire)

/-- A 2d sketch to be extruded. -/
inductive Sketch where
  | circle (radius : ℝ)
  | rect (xLen yLen : ℝ) (centered : Bool)
  | wire (w : Wire)

/-- A solid, as the term of cadquery operations that builds it.  External
library builders that this script calls but does not define
(`MaleFastenerPart.make`, `make_pilothole_cutter`, `drive.apply`, and the
`coordsys + solid` / `coordsys - coordsys` placement arithmetic) are opaque
constructors. -/
inductive Geom where
  | extrude (origin : Vec3) (s : Sketch) (depth : ℝ)
  | box (xLen yLen zLen : ℝ)
  | cut (a b : Geom)
  | union (a b : Geom)
  | translate (g : Geom) (v : Vec3)
  | rotate (g : Geom) (axisStart axisEnd : Vec3) (angle : ℝ)
  | maleFastenerMake (head drive thread : SubPart) (neck_diam neck_length len : ℝ)
  | pilotholeCutter (thread : SubPart)
  | driveApply (drive : SubPart) (g : Geom)
  | transformRel (a b : CoordSys) (g : Geom)

-- ------------------- Wood Screw -------------------

/-- Parameter record of the `WoodScrew` class: the sub-part parameters and
scalar parameters declared in the class body (the scalars are all
`PositiveFloat`). -/
structure WoodScrew where
  head : SubPart
  drive : SubPart
  thread : SubPart
  neck_diam : ℝ
  neck_length : ℝ
  length : ℝ
  neck_exposed : ℝ
  bore_diam : ℝ

/-- The declared default values of `WoodScrew`: `WoodScrew()`. -/
noncomputable def WoodScrew.default : WoodScrew where
  head := ⟨"cheese", [("diameter", 4), ("height", 2)]⟩
  drive := ⟨"phillips", [("diameter", 3.5), ("depth", 2.5), ("width", 0.5)]⟩
  thread := ⟨"triangular", [("diameter", 5), ("diameter_core", 4.3), ("pitch", 2), ("angle", 30)]⟩
  neck_diam := 2
  neck_length := 40
  length := 50
  neck_exposed := 2
  bore_diam := 6

/-- The source method `WoodScrew.make`: the inherited male-fastener solid, united with a bore
cylinder from which three rotated side slices are cut. -/
noncomputable def WoodScrew.make (s : WoodScrew) : Geom :=
  let screw := Geom.maleFastenerMake s.head s.drive s.thread s.neck_diam s.neck_length s.length
  let bore0 := Geom.extrude ⟨0, 0, -s.neck_length⟩ (Sketch.circle (s.bore_diam / 2))
    (s.neck_length - s.neck_exposed)
  let bore := (List.range 3).foldl (fun b i =>
    Geom.cut b (Geom.rotate
      (Geom.extrude ⟨s.bore_diam / 2, 0, -(s.neck_exposed + 2)⟩
        (Sketch.circle (s.bore_diam / 3))
        (-(s.neck_length - s.neck_exposed - 4)))
      ⟨0, 0, 0⟩ ⟨0, 0, 1⟩ ((i : ℝ) * (360 / 3)))) bore0
  Geom.union screw bore

/-- The source method `WoodScrew.make_cutter`: a bore-diameter cylinder down to the neck end,
united with the thread's pilot-hole cutter translated to the thread end. -/
noncomputable def WoodScrew.make_cutter (s : WoodScrew) : Geom :=
  let cutter := Geom.extrude ⟨0, 0, 0⟩ (Sketch.circle (s.bore_diam / 2)) (-s.neck_length)
  Geom.union cutter (Geom.translate (Geom.pilotholeCutter s.thread) ⟨0, 0, -s.length⟩)

/-- The source method `WoodScrew.make_simple`: the script returns `self.make_cutter()`. -/
noncomputable def WoodScrew.make_simple (s : WoodScrew) : Geom :=
  s.make_cutter

/-- The source method `WoodScrew.mate_threadstart`. -/
noncomputable def WoodScrew.mate_threadstart (s : WoodScrew) : Mate :=
  ⟨⟨⟨0, 0, -s.neck_length⟩, ⟨1, 0, 0⟩, ⟨0, 0, 1⟩⟩⟩

-- ------------------- Anchor -------------------

/-- Parameter record of the `Anchor` class.  `spline_point_count` is an
`IntRange(4, 200)`, `ratio_start` a `FloatRange(0.5, 0.99)` and `ratio_end`
a `FloatRange(0.01, 0.8)`; the remaining scalars are `PositiveFloat`.
`drive` is a `DriveType`, nullable in cqparts, hence an `Option`. -/
structure Anchor where
  drive : Option SubPart
  diameter : ℝ
  height : ℝ
  neck_diameter : ℝ
  head_diameter : ℝ
  spline_point_count : ℕ
  ratio_start : ℝ
  ratio_end : ℝ

/-- The declared default values of `Anchor`: `Anchor()`. -/
noncomputable def Anchor.default : Anchor where
  drive := some ⟨"cross", [("diameter", 5), ("width", 1), ("depth", 2.5)]⟩
  diameter := 10
  height := 5
  neck_diameter := 2
  head_diameter := 4
  spline_point_count := 10
  ratio_start := 0.99
  ratio_end := 0.7

/-- The source method `Anchor.wedge_radii`: start and end radius of the wedge spiral. -/
noncomputable def Anchor.wedge_radii (a : Anchor) : ℝ × ℝ :=
  ((a.diameter / 2) * a.ratio_start, (a.diameter / 2) * a.ratio_end)

/-- The `points` list in `Anchor.make`: for `i` in `range(1, n+1)` the point
at angle `i*(pi/n)` and radius `start_r + (end_r - start_r)*(i/n)`, mapped to
coordinates `(cos(a)*r, -sin(a)*r)`. -/
noncomputable def Anchor.splinePoints (a : Anchor) : List (ℝ × ℝ) :=
  (List.range a.spline_point_count).map (fun j =>
    let i : ℕ := j + 1
    let angle : ℝ := (i : ℝ) * (Real.pi / (a.spline_point_count : ℝ))
    let r : ℝ := a.wedge_radii.1 +
      (a.wedge_radii.2 - a.wedge_radii.1) * ((i : ℝ) / (a.spline_point_count : ℝ))
    (Real.cos angle * r, -Real.sin angle * r))

/-- The neck-slot solid cut in `Anchor.make`. -/
noncomputable def Anchor.neckSlotCut (a : Anchor) : Geom :=
  Geom.extrude ⟨0, 0, -((a.neck_diameter + a.height) / 2)⟩
    (Sketch.wire (Wire.close (Wire.threePointArc
      (Wire.lineTo (Wire.moveTo 0 0) (a.diameter / 2) 0)
      (0, -a.diameter / 2) (-(a.diameter / 2), 0))))
    a.neck_diameter

/-- The head-slot (wedge) solid cut in `Anchor.make`: a closed spline through
`splinePoints`, starting from `(start_r, 0)`, extruded by `head_diameter`. -/
noncomputable def Anchor.wedgeCut (a : Anchor) : Geom :=
  Geom.extrude ⟨0, 0, -((a.head_diameter + a.height) / 2)⟩
    (Sketch.wire (Wire.close (Wire.spline
      (Wire.moveTo a.wedge_radii.1 0) a.splinePoints)))
    a.head_diameter

/-- The access-port solid cut in `Anchor.make`. -/
noncomputable def Anchor.accessPortCut (a : Anchor) : Geom :=
  Geom.extrude ⟨0, 0, -(a.height - a.head_diameter) / 2⟩
    (Sketch.rect (a.diameter / 2) (a.diameter / 2) false)
    (-a.height)

/-- The source method `Anchor.make`: cylinder, minus neck slot, wedge and access port, with the
drive applied when one is set. -/
noncomputable def Anchor.make (a : Anchor) : Geom :=
  let obj := Geom.extrude ⟨0, 0, 0⟩ (Sketch.circle (a.diameter / 2)) (-a.height)
  let obj := Geom.cut obj a.neckSlotCut
  let obj := Geom.cut obj a.wedgeCut
  let obj := Geom.cut obj a.accessPortCut
  match a.drive with
  | some d => Geom.driveApply d obj
  | none => obj

/-- The source method `Anchor.make_simple`: just the core cylinder. -/
noncomputable def Anchor.make_simple (a : Anchor) : Geom :=
  Geom.extrude ⟨0, 0, 0⟩ (Sketch.circle (a.diameter / 2)) (-a.height)

/-- The source method `Anchor.make_cutter`: anchor-diameter cylinder with a 1 m bore depth. -/
noncomputable def Anchor.make_cutter (a : Anchor) : Geom :=
  Geom.extrude ⟨0, 0, -a.height⟩ (Sketch.circle (a.diameter / 2)) (a.height + 1000)

/-- The source method `Anchor.mate_screwhead`. -/
noncomputable def Anchor.mate_screwhead (a : Anchor) : Mate :=
  ⟨⟨⟨0, -((a.wedge_radii.1 + a.wedge_radii.2) / 2), -a.height / 2⟩, ⟨1, 0, 0⟩, ⟨0, 1, 0⟩⟩⟩

/-- The source method `Anchor.mate_center`. -/
noncomputable def Anchor.mate_center (a : Anchor) : Mate :=
  ⟨⟨⟨0, 0, -a.height / 2⟩, ⟨1, 0, 0⟩, ⟨0, 0, 1⟩⟩⟩

/-- The source method `Anchor.mate_base`. -/
noncomputable def Anchor.mate_base (a : Anchor) : Mate :=
  ⟨⟨⟨0, 0, -a.height⟩, ⟨1, 0, 0⟩, ⟨0, 0, 1⟩⟩⟩

-- ------------------- Joined Planks (parameter record) -------------------

/-- Parameter record of `WoodPanel` (all `PositiveFloat`), with defaults
`thickness=15`, `width=100`, `length=100`. -/
structure WoodPanel where
  thickness : ℝ
  width : ℝ
  length : ℝ

/-- The source method `WoodPanel.make`: `box(length, width, thickness)`. -/
noncomputable def WoodPanel.make (p : WoodPanel) : Geom :=
  Geom.box p.length p.width p.thickness

/-- The source method `WoodPanel.mate_end`: center of the +x face. -/
noncomputable def WoodPanel.mate_end (p : WoodPanel) : Mate :=
  ⟨⟨⟨p.length / 2, 0, 0⟩, ⟨0, 0, -1⟩, ⟨-1, 0, 0⟩⟩⟩

/-- The source method `WoodPanel.get_mate_edge`. -/
noncomputable def WoodPanel.get_mate_edge (p : WoodPanel) (thickness : ℝ) : Mate :=
  ⟨⟨⟨(p.length / 2) - (thickness / 2), 0, p.thickness / 2⟩, ⟨1, 0, 0⟩, ⟨0, 0, 1⟩⟩⟩

-- ------------------- Screw & Anchor -------------------

/-- A concrete part instance created by the script. -/
inductive PartObj where
  | screwObj (s : WoodScrew)
  | anchorObj (a : Anchor)
  | panelObj (p : WoodPanel)

/-- The source method `_Together.make_components`: a screw with 5 mm of exposed neck and an
anchor 7 mm high. -/
noncomputable def Together.make_components : List (String × PartObj) :=
  [("screw", PartObj.screwObj { WoodScrew.default with neck_exposed := 5 }),
   ("anchor", PartObj.anchorObj { Anchor.default with height := 7 })]


-- ------------------- Fastener -------------------

/-- One effect of the framework's `VectorEvaluator`: the intersection segment
of the evaluation vector with one part, as an ordered pair of points.  Parts
are identified by an index into the evaluated assembly. -/
structure Effect where
  part : ℕ
  start_point : Vec3
  end_point : Vec3

/-- The component dictionary returned by the fastener's selector. -/
structure Components where
  anchor : Anchor
  screw : WoodScrew

/-- The source method `EasyInstallFastener.Selector.get_components`, for a non-empty evaluator
effect list (`eval[0]` / `eval[-1]` on an empty list would raise): a default
anchor, and a screw whose neck length is the span of the effect start points
minus the anchor's slack, and whose total length adds 80 % of the last
effect's length as thread. -/
noncomputable def Selector.get_components (effects : List Effect) (h : effects ≠ []) :
    Components :=
  let anchor := Anchor.default
  let v_rel_center := anchor.mate_center.local_coords.origin
  let v_rel_screwhead := anchor.mate_base.local_coords.origin
  let anchor_slack := vabs (v_rel_screwhead - v_rel_center)
  let effect_length := vabs ((effects.getLast h).start_point - (effects.head h).start_point)
  let neck_length := effect_length - anchor_slack
  let thread_maxlength :=
    vabs ((effects.getLast h).end_point - (effects.getLast h).start_point)
  let thread_length := thread_maxlength * 0.8
  let screw : WoodScrew :=
    { WoodScrew.default with
        neck_length := neck_length
        length := neck_length + thread_length }
  ⟨anchor, screw⟩

/-- Pointwise update of a part-indexed object store, as Python's assignment
`effect.part.local_obj = ...` rebinds one part's local solid. -/
noncomputable def updateObj (st : ℕ → Geom) (k : ℕ) (v : Geom) : ℕ → Geom :=
  fun x => if x = k then v else st x

/-- One iteration of either loop in `apply_alterations`:
`effect.part.local_obj = effect.part.local_obj.cut((w - part_world) + cutter)`,
the cutter transformed by `cutter_world_coords - part_world_coords`. -/
noncomputable def cutStep (w : CoordSys) (worldOf : ℕ → CoordSys) (cutter : Geom)
    (st : ℕ → Geom) (e : Effect) : ℕ → Geom :=
  updateObj st e.part
    (Geom.cut (st e.part) (Geom.transformRel w (worldOf e.part) cutter))

/-- The source method `EasyInstallFastener.Applicator.apply_alterations`.  `objs` maps each part
index to its `local_obj`; `worldOf` maps it to its world coordinates;
`screwW` / `anchorW` are the placed screw's and anchor's world coordinates.
The screw cutter is cut from every effected part, the anchor cutter from all
but the last. -/
noncomputable def Applicator.apply_alterations (screw : WoodScrew) (anchor : Anchor)
    (screwW anchorW : CoordSys) (worldOf : ℕ → CoordSys)
    (effects : List Effect) (objs : ℕ → Geom) : ℕ → Geom :=
  let screw_cutter := screw.make_cutter
  let anchor_cutter := anchor.make_cutter
  let objs1 := effects.foldl (cutStep screwW worldOf screw_cutter) objs
  effects.dropLast.foldl (cutStep anchorW worldOf anchor_cutter) objs1

-- ------------------- Catalogue and script trace -------------------

/-- A criteria value in a catalogue entry (strings and numbers occur). -/
inductive CritVal where
  | str (s : String)
  | int (n : ℤ)
deriving DecidableEq

/-- A model the export/display phase refers to. -/
inductive ModelRef where
  | woodScrew (s : WoodScrew)
  | anchorRef (a : Anchor)
  | together
  | connectedPlanks

/-- One externally visible step of the script, in program order. -/
inductive ScriptAction where
  | createFile (path : String)
  | catalogueAdd (id : String) (criteria : List (String × CritVal)) (obj : PartObj)
  | unlinkFile (path : String)
  | exportGltf (model : ModelRef) (path : String)
  | displayModel (model : ModelRef)

/-- The four catalogue `add` calls, in loop order: the two screws, then the
two anchors, each an (id, criteria, part) record. -/
noncomputable def catalogueAdds : List ScriptAction :=
  [ScriptAction.catalogueAdd ("screw_30")
     [("type", CritVal.str ("screw")), ("thread_length", CritVal.int 10),
      ("compatible_anchor", CritVal.str ("anchor_10"))]
     (PartObj.screwObj { WoodScrew.default with
        neck_exposed := 5, length := 40, neck_length := 30 }),
   ScriptAction.catalogueAdd ("screw_50")
     [("type", CritVal.str ("screw")), ("thread_length", CritVal.int 15),
      ("compatible_anchor", CritVal.str ("anchor_15"))]
     (PartObj.screwObj { WoodScrew.default with
        neck_exposed := 6, length := 65, neck_length := 50 }),
   ScriptAction.catalogueAdd ("anchor_10")
     [("type", CritVal.str ("anchor"))]
     (PartObj.anchorObj { Anchor.default with diameter := 10, height := 7 }),
   ScriptAction.catalogueAdd ("anchor_15")
     [("type", CritVal.str ("anchor"))]
     (PartObj.anchorObj { Anchor.default with diameter := 15, height := 10 })]

/-- Catalogue phase of the script, for the temporary file name returned by
`tempfile.mktemp()`: the `JSONCatalogue` backing file is created, the four
entries are added, and the file is removed with `os.unlink`. -/
noncomputable def cataloguePhase (tmp : String) : List ScriptAction :=
  ScriptAction.createFile tmp :: catalogueAdds ++ [ScriptAction.unlinkFile tmp]

/-- Export/display phase of the script, keyed on `cqparts.utils.env.env_name`:
under `cmdline` three glTF exports and nothing else; under `freecad` a single
display of a `ConnectedPlanks`; otherwise nothing. -/
noncomputable def exportPhase (env : String) : List ScriptAction :=
  if env = "cmdline" then
    [ScriptAction.exportGltf (ModelRef.woodScrew WoodScrew.default) "screw.gltf",
     ScriptAction.exportGltf (ModelRef.anchorRef Anchor.default) "anchor.gltf",
     ScriptAction.exportGltf ModelRef.together ("together.gltf")]
  else if env = "freecad" then
    [ScriptAction.displayModel ModelRef.connectedPlanks]
  else
    []

/-- The script's whole externally visible trace. -/
noncomputable def scriptTrace (tmp env : String) : List ScriptAction :=
  cataloguePhase tmp ++ exportPhase env

/-- Effect of one action on the files on disk, modelled as a list in which
a file exists exactly when its path is a member: creating or exporting
prepends the path, unlinking removes every occurrence. -/
noncomputable def fsStep (fs : List String) : ScriptAction → List String
  | ScriptAction.createFile p => p :: fs
  | ScriptAction.unlinkFile p => fs.filter (fun q => q ≠ p)
  | ScriptAction.exportGltf _ p => p :: fs
  | _ => fs

/-- Files on disk after running a list of actions. -/
noncomputable def runFS (acts : List ScriptAction) (fs : List String) : List String :=
  acts.foldl fsStep fs

/-- Does an action create a file? -/
def isCreateFile : ScriptAction → Bool
  | ScriptAction.createFile _ => true
  | _ => false

/-- Does an action export a file? -/
def isExportAction : ScriptAction → Bool
  | ScriptAction.exportGltf _ _ => true
  | _ => false

/-- Does an action display a model? -/
def isDisplayAction : ScriptAction → Bool
  | ScriptAction.displayModel _ => true
  | _ => false

/-- The id of a catalogue `add` action, when the action is one. -/
def catalogueAddId : ScriptAction → Option String
  | ScriptAction.catalogueAdd id _ _ => some id
  | _ => none

-- ------------------- Class declarations, reified -------------------

/-- A class statement of the script, reified: its name, its base, the
parameter fields declared in its body, and the methods (`def`s, including
properties) defined directly in its body. -/
structure ClassDecl where
  name : String
  base : String
  paramNames : List String
  methodNames : List String
deriving DecidableEq

/-- The `WoodScrew` class statement. -/
def woodScrewDecl : ClassDecl :=
  ⟨"WoodScrew", "MaleFastenerPart",
   ["head", "drive", "thread", "neck_diam", "neck_length", "length",
    "neck_exposed", "bore_diam"],
   ["initialize_parameters", "make", "make_cutter", "make_simple",
    "mate_threadstart"]⟩

/-- The `Anchor` class statement. -/
def anchorDecl : ClassDecl :=
  ⟨"Anchor", "cqparts.Part",
   ["drive", "diameter", "height", "neck_diameter", "head_diameter",
    "spline_point_count", "ratio_start", "ratio_end"],
   ["wedge_radii", "make", "make_simple", "make_cutter", "mate_screwhead",
    "mate_center", "mate_base"]⟩

/-- The `_Together` class statement. -/
def togetherDecl : ClassDecl :=
  ⟨"_Together", "cqparts.Assembly", [],
   ["make_components", "make_constraints"]⟩

/-- The `EasyInstallFastener` class statement: its body defines the class
attribute `Evaluator` and the nested `Selector` and `Applicator` classes,
and no method of its own. -/
def easyInstallFastenerDecl : ClassDecl :=
  ⟨"EasyInstallFastener", "Fastener", [], []⟩

/-- The `WoodPanel` class statement. -/
def woodPanelDecl : ClassDecl :=
  ⟨"WoodPanel", "cqparts.Part", ["thickness", "width", "length"],
   ["make", "mate_end", "get_mate_edge"]⟩

/-- The `ConnectedPlanks` class statement. -/
def connectedPlanksDecl : ClassDecl :=
  ⟨"ConnectedPlanks", "cqparts.Assembly", [],
   ["make_components", "make_constraints"]⟩

/-- The geometric-model class statements of the file, in file order
(`WoodPanel` and `ConnectedPlanks` together form the fifth model). -/
def scriptClassDecls : List ClassDecl :=
  [woodScrewDecl, anchorDecl, togetherDecl, easyInstallFastenerDecl,
   woodPanelDecl, connectedPlanksDecl]

-- ------------------- Parameter validation -------------------

/-- Modelled from the spec: the cqparts parameter descriptors
(`PositiveFloat`, `IntRange`, `FloatRange`) are external to this file and
"validated only by range/type constraints declared alongside each field".
This predicate collects the constraints the Anchor class body declares. -/
def Anchor.paramsValid (a : Anchor) : Prop :=
  0 < a.diameter ∧ 0 < a.height ∧ 0 < a.neck_diameter ∧ 0 < a.head_diameter ∧
  4 ≤ a.spline_point_count ∧ a.spline_point_count ≤ 200 ∧
  0.5 ≤ a.ratio_start ∧ a.ratio_start ≤ 0.99 ∧
  0.01 ≤ a.ratio_end ∧ a.ratio_end ≤ 0.8

/-- Modelled from the spec: the constraints the `WoodScrew` class body
declares on its scalar parameters (all `PositiveFloat`). -/
def WoodScrew.paramsValid (s : WoodScrew) : Prop :=
  0 < s.neck_diam ∧ 0 < s.neck_length ∧ 0 < s.length ∧
  0 < s.neck_exposed ∧ 0 < s.bore_diam

open Classical in
/-- Modelled from the spec: constructing an `Anchor` raises a parameter
error exactly when a declared range constraint is violated; no other
validation is applied. -/
noncomputable def Anchor.construct (a : Anchor) : Except String Anchor :=
  if a.paramsValid then Except.ok a else Except.error ("ParameterError")

open Classical in
/-- Modelled from the spec: constructing a `WoodScrew` raises a parameter
error exactly when a declared range constraint is violated; no other
validation is applied. -/
noncomputable def WoodScrew.construct (s : WoodScrew) : Except String WoodScrew :=
  if s.paramsValid then Except.ok s else Except.error ("ParameterError")

/-- Modelled from the spec: a construction loop over a list of parameter
records, stopping at the first error, as the script's `for` loops do. -/
noncomputable def constructAll {α : Type} (construct : α → Except String α) :
    List α → Except String (List α)
  | [] => Except.ok []
  | a :: t => do
    let x ← construct a
    let xs ← constructAll construct t
    pure (x :: xs)

/-- Modelled from the spec: the script's construction of a sequence of screws
and anchors (catalogue loops, then the display models), in order, with no
exception handler anywhere in the file: the first parameter error is the
outcome of the whole run. -/
noncomputable def buildModels (screws : List WoodScrew) (anchors : List Anchor) :
    Except String Unit := do
  let _ ← constructAll WoodScrew.construct screws
  let _ ← constructAll Anchor.construct anchors
  pure ()

-- ------------------- Methods as state transformers -------------------

/-- The source method `WoodScrew.make` as a state transformer on the receiver: the method body
assigns no attribute of `self`, so the explicit-state translation returns the
receiver unchanged next to its result. -/
noncomputable def WoodScrew.makeS (s : WoodScrew) : Geom × WoodScrew :=
  (s.make, s)

/-- The source method `WoodScrew.make_cutter` as a state transformer on the receiver. -/
noncomputable def WoodScrew.makeCutterS (s : WoodScrew) : Geom × WoodScrew :=
  (s.make_cutter, s)

/-- The source method `WoodScrew.make_simple` as a state transformer on the receiver. -/
noncomputable def WoodScrew.makeSimpleS (s : WoodScrew) : Geom × WoodScrew :=
  (s.make_simple, s)

/-- The source method `WoodScrew.mate_threadstart` as a state transformer on the receiver. -/
noncomputable def WoodScrew.mateThreadstartS (s : WoodScrew) : Mate × WoodScrew :=
  (s.mate_threadstart, s)

/-- The source method `Anchor.make` as a state transformer on the receiver. -/
noncomputable def Anchor.makeS (a : Anchor) : Geom × Anchor :=
  (a.make, a)

/-- The source method `Anchor.make_simple` as a state transformer on the receiver. -/
noncomputable def Anchor.makeSimpleS (a : Anchor) : Geom × Anchor :=
  (a.make_simple, a)

/-- The source method `Anchor.make_cutter` as a state transformer on the receiver. -/
noncomputable def Anchor.makeCutterS (a : Anchor) : Geom × Anchor :=
  (a.make_cutter, a)

/-- The source method `Anchor.mate_screwhead` as a state transformer on the receiver. -/
noncomputable def Anchor.mateScrewheadS (a : Anchor) : Mate × Anchor :=
  (a.mate_screwhead, a)

/-- The source method `Anchor.mate_center` as a state transformer on the receiver. -/
noncomputable def Anchor.mateCenterS (a : Anchor) : Mate × Anchor :=
  (a.mate_center, a)

/-- The source method `Anchor.mate_base` as a state transformer on the receiver. -/
noncomputable def Anchor.mateBaseS (a : Anchor) : Mate × Anchor :=
  (a.mate_base, a)

-- ------------------- Claims -------------------

/-- C7 counterexample: the `_Together` class is one of the five geometric
models yet defines no `make()` method of its own (it defines
`make_components` and `make_constraints`). -/
theorem C7_counterexample_together_has_no_make :
    togetherDecl ∈ scriptClassDecls ∧ "make" ∉ togetherDecl.methodNames := by
  decide

/-- C7 (amended): the `Part` subclasses (WoodScrew, Anchor, WoodPanel) each
declare parameter fields and define a `make()` method of their own, while
the `Assembly` subclasses (`_Together`, `ConnectedPlanks`) declare no
parameters and define `make_components()` and `make_constraints()` instead
of a `make()`, and `EasyInstallFastener` declares no parameters and defines
nested `Selector`/`Applicator` classes rather than any method of its own. -/
theorem C7_models_are_parameter_bags_with_builders :
    ("make" ∈ woodScrewDecl.methodNames ∧ woodScrewDecl.paramNames ≠ []) ∧
    ("make" ∈ anchorDecl.methodNames ∧ anchorDecl.paramNames ≠ []) ∧
    ("make" ∈ woodPanelDecl.methodNames ∧ woodPanelDecl.paramNames ≠ []) ∧
    ("make" ∉ togetherDecl.methodNames ∧
      "make_components" ∈ togetherDecl.methodNames ∧
      "make_constraints" ∈ togetherDecl.methodNames ∧
      togetherDecl.paramNames = []) ∧
    ("make" ∉ connectedPlanksDecl.methodNames ∧
      "make_components" ∈ connectedPlanksDecl.methodNames ∧
      "make_constraints" ∈ connectedPlanksDecl.methodNames ∧
      connectedPlanksDecl.paramNames = []) ∧
    ("make" ∉ easyInstallFastenerDecl.methodNames ∧
      easyInstallFastenerDecl.paramNames = []) := by
  decide

/-- C2: the export/display boundary is decided solely by `env_name`: under
`cmdline` the script exports exactly three glTF files (`screw.gltf` for a
default wood screw, `anchor.gltf` for a default anchor, `together.gltf` for
the screw-and-anchor assembly) and displays nothing; under `freecad` it
exports nothing and displays a `ConnectedPlanks`; under no environment does
it both export and display. -/
theorem C2_export_display_boundary :
    exportPhase ("cmdline") =
      [ScriptAction.exportGltf (ModelRef.woodScrew WoodScrew.default) "screw.gltf",
       ScriptAction.exportGltf (ModelRef.anchorRef Anchor.default) "anchor.gltf",
       ScriptAction.exportGltf ModelRef.together ("together.gltf")] ∧
    (exportPhase ("cmdline")).countP isDisplayAction = 0 ∧
    (exportPhase ("freecad")).countP isExportAction = 0 ∧
    exportPhase ("freecad") = [ScriptAction.displayModel ModelRef.connectedPlanks] ∧
    ∀ env : String, (exportPhase env).countP isExportAction = 0 ∨
      (exportPhase env).countP isDisplayAction = 0 := by
  refine ⟨by simp [exportPhase], by simp [exportPhase, isDisplayAction],
    by simp [exportPhase, isExportAction], by simp [exportPhase], ?_⟩
  intro env
  by_cases h1 : env = "cmdline"
  · right; simp [exportPhase, h1, isDisplayAction]
  · left
    by_cases h2 : env = "freecad" <;> simp [exportPhase, h1, h2, isExportAction]

/-- The simplified-screw solid as the claim describes it: a cylinder of
radius `bore_diam/2` extruded from the origin down to `z = -neck_length`,
unioned with the thread's pilot-hole cutter translated to `z = -length`.
Written from the claim for comparison with the source's `make_cutter`. -/
noncomputable def WoodScrew.simpleSolidSpec (s : WoodScrew) : Geom :=
  Geom.union
    (Geom.extrude ⟨0, 0, 0⟩ (Sketch.circle (s.bore_diam / 2)) (-s.neck_length))
    (Geom.translate (Geom.pilotholeCutter s.thread) ⟨0, 0, -s.length⟩)

/-- C9: `make_simple` returns exactly the solid `make_cutter` returns, and
that solid is the bore cylinder united with the translated pilot-hole
cutter. -/
theorem C9_make_simple_is_cutter (s : WoodScrew) :
    s.make_simple = s.make_cutter ∧ s.make_simple = s.simpleSolidSpec :=
  ⟨rfl, rfl⟩

/-- C9 witness: the equality evaluated on the default screw. -/
theorem C9_make_simple_is_cutter_witness :
    WoodScrew.default.make_simple = WoodScrew.default.make_cutter ∧
    WoodScrew.default.make_simple = WoodScrew.default.simpleSolidSpec :=
  C9_make_simple_is_cutter WoodScrew.default

/-- C6: a part's parameters are immutable under its operations: every method
of `WoodScrew` and `Anchor`, read as a state transformer on the receiver,
returns the receiver with every parameter field unchanged. -/
theorem C6_parameters_immutable (s : WoodScrew) (a : Anchor) :
    (s.makeS).2 = s ∧ (s.makeCutterS).2 = s ∧ (s.makeSimpleS).2 = s ∧
    (s.mateThreadstartS).2 = s ∧
    (a.makeS).2 = a ∧ (a.makeSimpleS).2 = a ∧ (a.makeCutterS).2 = a ∧
    (a.mateScrewheadS).2 = a ∧ (a.mateCenterS).2 = a ∧ (a.mateBaseS).2 = a :=
  ⟨rfl, rfl, rfl, rfl, rfl, rfl, rfl, rfl, rfl, rfl⟩

/-- C6 witness: immutability evaluated on the default screw and anchor. -/
theorem C6_parameters_immutable_witness :
    (WoodScrew.default.makeS).2 = WoodScrew.default ∧
    (WoodScrew.default.makeCutterS).2 = WoodScrew.default ∧
    (WoodScrew.default.makeSimpleS).2 = WoodScrew.default ∧
    (WoodScrew.default.mateThreadstartS).2 = WoodScrew.default ∧
    (Anchor.default.makeS).2 = Anchor.default ∧
    (Anchor.default.makeSimpleS).2 = Anchor.default ∧
    (Anchor.default.makeCutterS).2 = Anchor.default ∧
    (Anchor.default.mateScrewheadS).2 = Anchor.default ∧
    (Anchor.default.mateCenterS).2 = Anchor.default ∧
    (Anchor.default.mateBaseS).2 = Anchor.default :=
  C6_parameters_immutable WoodScrew.default Anchor.default

/-- An anchor whose ratios pass their declared ranges but whose wedge widens:
`ratio_start = 0.5`, `ratio_end = 0.8`. -/
noncomputable def anchorWideEnd : Anchor :=
  { Anchor.default with ratio_start := 0.5, ratio_end := 0.8 }

/-- C10: the declared ranges do not force the wedge to narrow: the anchor
with `ratio_start = 0.5` and `ratio_end = 0.8` passes every declared
constraint, constructs without error, and its wedge end radius strictly
exceeds its start radius. -/
theorem C10_ranges_allow_widening_wedge :
    anchorWideEnd.paramsValid ∧
    anchorWideEnd.construct = Except.ok anchorWideEnd ∧
    anchorWideEnd.wedge_radii.1 < anchorWideEnd.wedge_radii.2 := by
  have hv : anchorWideEnd.paramsValid := by
    refine ⟨?_, ?_, ?_, ?_, ?_, ?_, ?_, ?_, ?_, ?_⟩ <;>
      norm_num [anchorWideEnd, Anchor.default]
  refine ⟨hv, ?_, ?_⟩
  · simp [Anchor.construct, hv]
  · norm_num [anchorWideEnd, Anchor.default, Anchor.wedge_radii]

/-- The property claimed of the wedge geometry: `wedge_radii` is the pair of
scaled half-diameters, the wedge cut's spline is built from exactly
`spline_point_count` points, and the `i`-th point (for `i` from 1 to
`spline_point_count`) lies at the strictly positive angle
`i*pi/spline_point_count` with linearly interpolated radius, mapped to
`(cos(a)*r, -sin(a)*r)`. -/
def C3Statement (a : Anchor) : Prop :=
  a.wedge_radii = ((a.diameter / 2) * a.ratio_start, (a.diameter / 2) * a.ratio_end) ∧
  a.wedgeCut = Geom.extrude ⟨0, 0, -((a.head_diameter + a.height) / 2)⟩
    (Sketch.wire (Wire.close (Wire.spline (Wire.moveTo a.wedge_radii.1 0) a.splinePoints)))
    a.head_diameter ∧
  a.splinePoints.length = a.spline_point_count ∧
  ∀ i : ℕ, 1 ≤ i → i ≤ a.spline_point_count →
    0 < (i : ℝ) * (Real.pi / (a.spline_point_count : ℝ)) ∧
    a.splinePoints.get? (i - 1) =
      some (Real.cos ((i : ℝ) * (Real.pi / (a.spline_point_count : ℝ))) *
              (a.wedge_radii.1 + (a.wedge_radii.2 - a.wedge_radii.1) *
                ((i : ℝ) / (a.spline_point_count : ℝ))),
            -Real.sin ((i : ℝ) * (Real.pi / (a.spline_point_count : ℝ))) *
              (a.wedge_radii.1 + (a.wedge_radii.2 - a.wedge_radii.1) *
                ((i : ℝ) / (a.spline_point_count : ℝ))))

/-- C3: for every anchor with a positive spline point count (the declared
range enforces at least 4), the wedge radii and the wedge cut's spline
points are as claimed. -/
theorem C3_wedge_radii_and_spline_points (a : Anchor)
    (hn : 0 < a.spline_point_count) : C3Statement a := by
  refine ⟨rfl, rfl, by simp [Anchor.splinePoints], ?_⟩
  intro i h1 h2
  have hlt : i - 1 < a.spline_point_count := by omega
  have hsucc : i - 1 + 1 = i := by omega
  constructor
  · have hi : (0 : ℝ) < (i : ℝ) := by exact_mod_cast h1
    have hnr : (0 : ℝ) < (a.spline_point_count : ℝ) := by exact_mod_cast hn
    exact mul_pos hi (div_pos Real.pi_pos hnr)
  · rw [Anchor.splinePoints, List.get?_map, List.get?_range hlt]
    simp only [Option.map_some']
    rw [hsucc]

/-- C3 witness: the property evaluated on the default anchor. -/
theorem C3_wedge_radii_and_spline_points_witness :
    0 < Anchor.default.spline_point_count ∧ C3Statement Anchor.default :=
  ⟨by decide, C3_wedge_radii_and_spline_points Anchor.default (by decide)⟩

/-- The property C1 claims of the selector: the created screw's neck length
is the distance from the first effect's start point to the last effect's
start point minus the anchor's slack (the distance between the default
anchor's `mate_base` origin and `mate_center` origin), its thread length is
0.8 times the last effect's length, and its total length is neck length plus
thread length. -/
def C1Statement (effects : List Effect) (h : effects ≠ []) : Prop :=
  (Selector.get_components effects h).screw.neck_length =
      vabs ((effects.getLast h).start_point - (effects.head h).start_point) -
        vabs (Anchor.default.mate_base.local_coords.origin -
          Anchor.default.mate_center.local_coords.origin) ∧
  (Selector.get_components effects h).screw.length -
      (Selector.get_components effects h).screw.neck_length =
    0.8 * vabs ((effects.getLast h).end_point - (effects.getLast h).start_point) ∧
  (Selector.get_components effects h).screw.length =
    (Selector.get_components effects h).screw.neck_length +
      0.8 * vabs ((effects.getLast h).end_point - (effects.getLast h).start_point)

/-- C1: for every non-empty evaluator effect list, the selector's screw has
the claimed neck length, thread length and total length. -/
theorem C1_selector_screw_dimensions (effects : List Effect) (h : effects ≠ []) :
    C1Statement effects h := by
  unfold C1Statement Selector.get_components
  refine ⟨rfl, by ring, by ring⟩

/-- A concrete two-effect evaluation along the z axis. -/
noncomputable def effectsW : List Effect :=
  [⟨0, ⟨0, 0, 0⟩, ⟨0, 0, 5⟩⟩, ⟨1, ⟨0, 0, 10⟩, ⟨0, 0, 30⟩⟩]

lemma effectsW_ne_nil : effectsW ≠ [] := by
  simp [effectsW]

/-- C1 witness: the selector evaluated on the concrete two-effect list. -/
theorem C1_selector_screw_dimensions_witness :
    effectsW ≠ [] ∧ C1Statement effectsW effectsW_ne_nil :=
  ⟨effectsW_ne_nil, C1_selector_screw_dimensions effectsW effectsW_ne_nil⟩

lemma except_bind_ok {α β : Type} (a : α) (f : α → Except String β) :
    (Except.ok a >>= f) = f a := rfl

lemma except_bind_error {α β : Type} (msg : String) (f : α → Except String β) :
    ((Except.error msg : Except String α) >>= f) = Except.error msg := rfl

lemma except_map_error {α β : Type} (msg : String) (f : α → β) :
    (f <$> (Except.error msg : Except String α)) = Except.error msg := rfl

lemma screws_constructAll_ok (l : List WoodScrew) (h : ∀ s ∈ l, s.paramsValid) :
    constructAll WoodScrew.construct l = Except.ok l := by
  induction l with
  | nil => rfl
  | cons a t ih =>
    have ha := h a (List.mem_cons_self a t)
    have ht := ih (fun s hs => h s (List.mem_cons_of_mem a hs))
    simp [constructAll, WoodScrew.construct, ha, ht, except_bind_ok, except_bind_error, except_map_error]

lemma screws_constructAll_error (l : List WoodScrew) (hx : ∃ s ∈ l, ¬ s.paramsValid) :
    ∃ msg, constructAll WoodScrew.construct l = Except.error msg := by
  induction l with
  | nil => simp at hx
  | cons a t ih =>
    by_cases ha : a.paramsValid
    · obtain ⟨b, hb, hbv⟩ := hx
      rcases List.mem_cons.1 hb with rfl | hbt
      · exact absurd ha hbv
      · obtain ⟨msg, hmsg⟩ := ih ⟨b, hbt, hbv⟩
        exact ⟨msg, by simp [constructAll, WoodScrew.construct, ha, hmsg, except_bind_ok, except_bind_error, except_map_error]⟩
    · exact ⟨"ParameterError", by simp [constructAll, WoodScrew.construct, ha, except_bind_ok, except_bind_error, except_map_error]⟩

lemma anchors_constructAll_error (l : List Anchor) (hx : ∃ a ∈ l, ¬ a.paramsValid) :
    ∃ msg, constructAll Anchor.construct l = Except.error msg := by
  induction l with
  | nil => simp at hx
  | cons a t ih =>
    by_cases ha : a.paramsValid
    · obtain ⟨b, hb, hbv⟩ := hx
      rcases List.mem_cons.1 hb with rfl | hbt
      · exact absurd ha hbv
      · obtain ⟨msg, hmsg⟩ := ih ⟨b, hbt, hbv⟩
        exact ⟨msg, by simp [constructAll, Anchor.construct, ha, hmsg, except_bind_ok, except_bind_error, except_map_error]⟩
    · exact ⟨"ParameterError", by simp [constructAll, Anchor.construct, ha, except_bind_ok, except_bind_error, except_map_error]⟩

/-- C5: a part whose parameters violate a declared range or type constraint
fails construction with a parameter error, a part meeting every declared
constraint passes with no other validation, and because the script installs
no handler, the first such error is the outcome of the whole construction
run. -/
theorem C5_parameter_validation_and_propagation :
    (∀ a : Anchor, ¬ a.paramsValid → a.construct = Except.error ("ParameterError")) ∧
    (∀ a : Anchor, a.paramsValid → a.construct = Except.ok a) ∧
    (∀ s : WoodScrew, ¬ s.paramsValid → s.construct = Except.error ("ParameterError")) ∧
    (∀ s : WoodScrew, s.paramsValid → s.construct = Except.ok s) ∧
    (∀ (screws : List WoodScrew) (anchors : List Anchor),
      (∃ s ∈ screws, ¬ s.paramsValid) →
        ∃ msg, buildModels screws anchors = Except.error msg) ∧
    (∀ (screws : List WoodScrew) (anchors : List Anchor),
      (∀ s ∈ screws, s.paramsValid) → (∃ a ∈ anchors, ¬ a.paramsValid) →
        ∃ msg, buildModels screws anchors = Except.error msg) := by
  refine ⟨?_, ?_, ?_, ?_, ?_, ?_⟩
  · intro a ha; simp [Anchor.construct, ha]
  · intro a ha; simp [Anchor.construct, ha]
  · intro s hs; simp [WoodScrew.construct, hs]
  · intro s hs; simp [WoodScrew.construct, hs]
  · intro screws anchors hx
    obtain ⟨msg, hmsg⟩ := screws_constructAll_error screws hx
    exact ⟨msg, by simp [buildModels, hmsg, except_bind_ok, except_bind_error, except_map_error]⟩
  · intro screws anchors hall hx
    obtain ⟨msg, hmsg⟩ := anchors_constructAll_error anchors hx
    exact ⟨msg, by simp [buildModels, screws_constructAll_ok screws hall, hmsg, except_bind_ok, except_bind_error, except_map_error]⟩

/-- An anchor with `spline_point_count = 3`, below the declared
`IntRange(4, 200)` minimum. -/
noncomputable def badAnchor : Anchor :=
  { Anchor.default with spline_point_count := 3 }

/-- C5 witness: the out-of-range anchor fails construction, and the failure
is the outcome of a construction run containing it. -/
theorem C5_parameter_validation_witness :
    (¬ badAnchor.paramsValid) ∧
    badAnchor.construct = Except.error ("ParameterError") ∧
    (∃ msg, buildModels [] [badAnchor] = Except.error msg) := by
  have hneg : ¬ badAnchor.paramsValid := fun hv => absurd hv.2.2.2.2.1 (by decide)
  exact ⟨hneg, C5_parameter_validation_and_propagation.1 badAnchor hneg,
    C5_parameter_validation_and_propagation.2.2.2.2.2 [] [badAnchor]
      (by simp) ⟨badAnchor, by simp, hneg⟩⟩

/-- The three export file names of the `cmdline` branch. -/
def gltfNames : List String := ["screw.gltf", "anchor.gltf", "together.gltf"]

/-- The property C4 claims of the catalogue lifecycle: the trace creates
exactly one file before the export/display phase, adds exactly the four
entries `screw_30`, `screw_50`, `anchor_10`, `anchor_15`, removes the
catalogue file before the first export/display action, and leaves no
catalogue file on disk at the end of the run. -/
def C4Statement (tmp env : String) : Prop :=
  (scriptTrace tmp env).countP isCreateFile = 1 ∧
  (scriptTrace tmp env).filterMap catalogueAddId =
    ["screw_30", "screw_50", "anchor_10", "anchor_15"] ∧
  scriptTrace tmp env =
    (ScriptAction.createFile tmp :: catalogueAdds) ++
      ScriptAction.unlinkFile tmp :: exportPhase env ∧
  (∀ a ∈ exportPhase env, isExportAction a = true ∨ isDisplayAction a = true) ∧
  (∀ fs0 : List String, tmp ∉ runFS (scriptTrace tmp env) fs0)

lemma exportPhase_countP_create (env : String) :
    (exportPhase env).countP isCreateFile = 0 := by
  by_cases h1 : env = "cmdline"
  · simp [exportPhase, h1, isCreateFile]
  · by_cases h2 : env = "freecad" <;> simp [exportPhase, h1, h2, isCreateFile]

lemma exportPhase_filterMap_addId (env : String) :
    (exportPhase env).filterMap catalogueAddId = [] := by
  by_cases h1 : env = "cmdline"
  · simp [exportPhase, h1, catalogueAddId]
  · by_cases h2 : env = "freecad" <;> simp [exportPhase, h1, h2, catalogueAddId]

/-- C4: the catalogue is transient, for any temporary file name distinct from
the export targets and any environment. -/
theorem C4_transient_catalogue (tmp env : String) (h : tmp ∉ gltfNames) :
    C4Statement tmp env := by
  have hne : tmp ≠ "screw.gltf" ∧ tmp ≠ "anchor.gltf" ∧ tmp ≠ "together.gltf" := by
    simpa [gltfNames] using h
  refine ⟨?_, ?_, ?_, ?_, ?_⟩
  · rw [scriptTrace, List.countP_append, exportPhase_countP_create]
    simp [cataloguePhase, catalogueAdds, isCreateFile, List.countP_cons]
  · rw [scriptTrace, List.filterMap_append, exportPhase_filterMap_addId]
    simp [cataloguePhase, catalogueAdds, catalogueAddId]
  · simp [scriptTrace, cataloguePhase]
  · intro a ha
    by_cases h1 : env = "cmdline"
    · rw [exportPhase, if_pos h1] at ha
      simp only [List.mem_cons, List.not_mem_nil, or_false] at ha
      rcases ha with rfl | rfl | rfl
      · left; rfl
      · left; rfl
      · left; rfl
    · by_cases h2 : env = "freecad"
      · rw [exportPhase, if_neg h1, if_pos h2] at ha
        simp only [List.mem_cons, List.not_mem_nil, or_false] at ha
        subst ha
        right; rfl
      · rw [exportPhase, if_neg h1, if_neg h2] at ha
        cases ha
  · intro fs0
    have hsplit : runFS (scriptTrace tmp env) fs0 =
        runFS (exportPhase env) (runFS (cataloguePhase tmp) fs0) := by
      simp [scriptTrace, runFS, List.foldl_append]
    have hcat : tmp ∉ runFS (cataloguePhase tmp) fs0 := by
      simp [cataloguePhase, catalogueAdds, runFS, fsStep, List.mem_filter]
    rw [hsplit]
    set A := runFS (cataloguePhase tmp) fs0 with hA
    by_cases h1 : env = "cmdline"
    · rw [exportPhase, if_pos h1]
      simp [runFS, fsStep, hcat, hne.1, hne.2.1, hne.2.2]
    · by_cases h2 : env = "freecad"
      · rw [exportPhase, if_neg h1, if_pos h2]
        simpa [runFS, fsStep] using hcat
      · rw [exportPhase, if_neg h1, if_neg h2]
        simpa [runFS] using hcat

/-- C4 witness: the lifecycle at a concrete temporary path under `cmdline`. -/
theorem C4_transient_catalogue_witness :
    "/tmp/tmpcatalogue" ∉ gltfNames ∧ C4Statement ("/tmp/tmpcatalogue") ("cmdline") :=
  ⟨by decide, C4_transient_catalogue ("/tmp/tmpcatalogue") ("cmdline") (by decide)⟩

lemma foldl_cutStep_not_mem (w : CoordSys) (worldOf : ℕ → CoordSys) (cutter : Geom)
    (l : List Effect) :
    ∀ (st : ℕ → Geom) (p : ℕ), p ∉ l.map Effect.part →
      l.foldl (cutStep w worldOf cutter) st p = st p := by
  induction l with
  | nil =>
    intro st p _
    rfl
  | cons a t ih =>
    intro st p hp
    simp only [List.map_cons, List.mem_cons, not_or] at hp
    rw [List.foldl_cons, ih _ p hp.2]
    simp [cutStep, updateObj, hp.1]

lemma foldl_cutStep_mem (w : CoordSys) (worldOf : ℕ → CoordSys) (cutter : Geom)
    (l : List Effect) :
    ∀ (st : ℕ → Geom) (e : Effect), e ∈ l → (l.map Effect.part).Nodup →
      l.foldl (cutStep w worldOf cutter) st e.part =
        Geom.cut (st e.part) (Geom.transformRel w (worldOf e.part) cutter) := by
  induction l with
  | nil =>
    intro st e he _
    cases he
  | cons a t ih =>
    intro st e he hnd
    simp only [List.map_cons, List.nodup_cons] at hnd
    rw [List.foldl_cons]
    rcases List.mem_cons.1 he with rfl | het
    · rw [foldl_cutStep_not_mem w worldOf cutter t _ e.part hnd.1]
      simp [cutStep, updateObj]
    · have hne : e.part ≠ a.part := by
        intro hEq
        exact hnd.1 (hEq ▸ List.mem_map_of_mem Effect.part het)
      rw [ih _ e het hnd.2]
      simp [cutStep, updateObj, hne]

/-- The property C8 claims of the applicator: parts outside the effect list
keep their local solid, every non-last effected part gets the transformed
screw cutter and then the transformed anchor cutter cut from it, and the
last effect's part gets the screw cutter cut only. -/
def C8Statement (screw : WoodScrew) (anchor : Anchor) (screwW anchorW : CoordSys)
    (worldOf : ℕ → CoordSys) (effects : List Effect) (objs : ℕ → Geom) : Prop :=
  (∀ p : ℕ, p ∉ effects.map Effect.part →
    Applicator.apply_alterations screw anchor screwW anchorW worldOf effects objs p =
      objs p) ∧
  (∀ e ∈ effects.dropLast,
    Applicator.apply_alterations screw anchor screwW anchorW worldOf effects objs e.part =
      Geom.cut
        (Geom.cut (objs e.part)
          (Geom.transformRel screwW (worldOf e.part) screw.make_cutter))
        (Geom.transformRel anchorW (worldOf e.part) anchor.make_cutter)) ∧
  (∀ h : effects ≠ [],
    Applicator.apply_alterations screw anchor screwW anchorW worldOf effects objs
        (effects.getLast h).part =
      Geom.cut (objs (effects.getLast h).part)
        (Geom.transformRel screwW (worldOf (effects.getLast h).part)
          screw.make_cutter))

/-- C8: when the effected parts are pairwise distinct (one intersection
segment per part, as the vector evaluator produces), the applicator cuts the
screw cutter from every effected part, additionally cuts the anchor cutter
from every effect but the last, and alters no other part. -/
theorem C8_apply_alterations_effects (screw : WoodScrew) (anchor : Anchor)
    (screwW anchorW : CoordSys) (worldOf : ℕ → CoordSys)
    (effects : List Effect) (objs : ℕ → Geom)
    (hnd : (effects.map Effect.part).Nodup) :
    C8Statement screw anchor screwW anchorW worldOf effects objs := by
  have happ : Applicator.apply_alterations screw anchor screwW anchorW worldOf effects objs =
      effects.dropLast.foldl (cutStep anchorW worldOf anchor.make_cutter)
        (effects.foldl (cutStep screwW worldOf screw.make_cutter) objs) := rfl
  have hsub : (effects.dropLast.map Effect.part).Sublist (effects.map Effect.part) :=
    (List.dropLast_sublist effects).map Effect.part
  have hndd : (effects.dropLast.map Effect.part).Nodup := hnd.sublist hsub
  refine ⟨?_, ?_, ?_⟩
  · intro p hp
    have hp2 : p ∉ effects.dropLast.map Effect.part := fun hm => hp (hsub.subset hm)
    rw [happ, foldl_cutStep_not_mem _ _ _ _ _ _ hp2,
      foldl_cutStep_not_mem _ _ _ _ _ _ hp]
  · intro e he
    have heff : e ∈ effects := (List.dropLast_sublist effects).subset he
    rw [happ, foldl_cutStep_mem _ _ _ _ _ e he hndd,
      foldl_cutStep_mem _ _ _ _ _ e heff hnd]
  · intro h
    have hlast : effects.getLast h ∈ effects := List.getLast_mem h
    have hdec : effects.dropLast ++ [effects.getLast h] = effects :=
      List.dropLast_append_getLast h
    have hnda : (effects.dropLast.map Effect.part ++
        [(effects.getLast h).part]).Nodup := by
      have hmap : List.map Effect.part (effects.dropLast ++ [effects.getLast h]) =
          effects.dropLast.map Effect.part ++ [(effects.getLast h).part] := by
        simp
      rw [← hmap, hdec]
      exact hnd
    have hnotd : (effects.getLast h).part ∉ effects.dropLast.map Effect.part :=
      fun hm => (List.disjoint_of_nodup_append hnda) hm (by simp)
    rw [happ, foldl_cutStep_not_mem _ _ _ _ _ _ hnotd,
      foldl_cutStep_mem _ _ _ _ _ _ hlast hnd]

/-- The world coordinate system at the global origin. -/
noncomputable def originCS : CoordSys :=
  ⟨⟨0, 0, 0⟩, ⟨1, 0, 0⟩, ⟨0, 0, 1⟩⟩

/-- C8 witness: the applicator evaluated on the concrete two-effect list with
distinct parts. -/
theorem C8_apply_alterations_effects_witness :
    (effectsW.map Effect.part).Nodup ∧
    C8Statement WoodScrew.default Anchor.default originCS originCS
      (fun _ => originCS) effectsW (fun _ => Geom.box 1 1 1) :=
  ⟨by simp [effectsW],
   C8_apply_alterations_effects WoodScrew.default Anchor.default originCS originCS
     (fun _ => originCS) effectsW (fun _ => Geom.box 1 1 1) (by simp [effectsW])⟩
